import Mathlib

/-!
# Astral Motors — verification of the quantitative financing engine

A shallow embedding of the financing/leasing engine of the Astral Motors
application, translated from the TypeScript source:

* `src/unnamed/part_004` (the `App` component): `getInterestRate`,
  `calculateMonthlyPayment`, `handleCommitAlignment`, `handleMakePayment`.
* `src/components/FinancingPage.tsx`: the `financingPlan` and `leasingPlan`
  memoised computations.
* `src/components/PaymentModal.tsx`: `floorToCent` and `handleSubmit`.
* `src/components/SampleUsersPage.tsx` (the `MyTimelinePage` component):
  `allFuturePayments` and `getOnTrackStatus`.

Modelling conventions:

* JavaScript numbers are modelled as `ℚ`.  Where the source can produce a
  non-finite value (`NaN` / `Infinity`, only through division by zero) the
  embedding returns `Option ℚ`, with `none` standing for a non-finite result.
* `new Date(year, month, day)` is modelled by `mkDate`, which reproduces the
  JavaScript date normalisation: the month is folded into the year and an
  overflowing day-of-month rolls forward into the following month(s).
  Months are 0-based (`0` = January), exactly as `Date.getMonth()`.
* The loan start date is stored in the source as an ISO string and re-parsed
  everywhere it is used; the embedding stores the parsed date directly.
* React state updates (`setUserData`) become pure functions `UserData → UserData`.
* `new Date()` (the current instant) is passed explicitly as a `JSDate`.
-/

namespace AstralMotors

/-! ## Calendar model (JavaScript `Date` normalisation) -/

/-- A calendar date as JavaScript exposes it: `getFullYear`, `getMonth`
(0-based month) and `getDate` (1-based day of month). -/
structure JSDate where
  year : Int
  month : Nat
  day : Nat
deriving DecidableEq

/-- Gregorian leap-year rule (as used by the JavaScript `Date` object). -/
def isLeap (y : Int) : Bool :=
  (y % 4 == 0 && y % 100 != 0) || y % 400 == 0

/-- Number of days of the (0-based) month `m` of year `y`.  Only `m < 12` is
ever reached; larger arguments return 31. -/
def daysInMonth (y : Int) (m : Nat) : Nat :=
  if m = 1 then (if isLeap y then 29 else 28)
  else if m = 3 ∨ m = 5 ∨ m = 8 ∨ m = 10 then 30
  else 31

/-- Roll an overflowing day-of-month forward into the following months, as
the JavaScript `Date` constructor does.  The fuel argument bounds the number
of rolls; every roll removes at least 28 days, so fuel `d` is always enough. -/
def rollForwardAux : Nat → Int → Nat → Nat → JSDate
  | 0, y, m, d => ⟨y, m, d⟩
  | fuel + 1, y, m, d =>
    if d ≤ daysInMonth y m then ⟨y, m, d⟩
    else rollForwardAux fuel (if m = 11 then y + 1 else y)
      (if m = 11 then 0 else m + 1) (d - daysInMonth y m)

/-- `new Date(y, m, d)` for an arbitrary (possibly out-of-range) 0-based
month `m` and a day `d ≥ 0`: the month is normalised into the year with floor
division and the day overflow rolls forward into later months. -/
def mkDate (y : Int) (m : Int) (d : Nat) : JSDate :=
  rollForwardAux d (y + m.fdiv 12) (m.emod 12).toNat d

/-- Chronological key of a date; on normalised dates (`month < 12`,
`day < 32`) it orders exactly like `Date.getTime()`. -/
def dateKey (dt : JSDate) : Int :=
  (dt.year * 12 + dt.month) * 32 + dt.day

/-- `(today.getFullYear() - start.getFullYear()) * 12 +
(today.getMonth() - start.getMonth())` — the month distance used by the
financing on-track evaluator. -/
def monthsPassed (start today : JSDate) : Int :=
  (today.year - start.year) * 12 + ((today.month : Int) - (start.month : Int))

/-! ## JavaScript-number helpers -/

/-- Division of JavaScript numbers: `none` models the non-finite results
(`NaN` when `0/0`, `±Infinity` otherwise) produced by a zero divisor. -/
def qdiv (a b : ℚ) : Option ℚ :=
  if b = 0 then none else some (a / b)

/-- `Math.floor(num * 100) / 100` from `PaymentModal.tsx`. -/
def floorToCent (q : ℚ) : ℚ :=
  (⌊q * 100⌋ : ℚ) / 100

/-- The JavaScript comparison `(num / den) >= rhs` for a finite `rhs`:
when `den = 0` the quotient is `+Infinity` (⟶ `true`) for `num > 0` and
`NaN` or `-Infinity` (⟶ `false`) otherwise. -/
def jsDivGe (num den rhs : ℚ) : Bool :=
  if den = 0 then decide (0 < num) else decide (rhs ≤ num / den)

/-- JavaScript falsiness of an optional numeric field
(`!x` is `true` for `undefined` and for `0`). -/
def isFalsyOptQ : Option ℚ → Bool
  | none => true
  | some x => decide (x = 0)

/-! ## Data model (`src/types.ts`) -/

/-- The `planType` discriminant. -/
inductive PlanType where
  | Financing
  | Leasing
deriving DecidableEq

/-- `ActiveLoan` from `src/types.ts`: the tracked obligation record. -/
structure ActiveLoan where
  id : String
  vehicleModel : String
  imageUrl : String
  monthlyPayment : ℚ
  totalCost : ℚ
  loanStartDate : JSDate
  loanTermInMonths : Nat
  paymentDayOfMonth : Nat
  color : String
  amountLeft : ℚ
  planType : PlanType
  lastPaymentMonth : Option Int := none
  initialLoanAmount : Option ℚ := none
deriving DecidableEq

/-- Vehicle preference block of `UserInput`. -/
structure Preferences where
  style : List String
  useCase : List String
  description : String
deriving DecidableEq

/-- `UserInput` from `src/types.ts`. -/
structure UserInput where
  income : ℚ
  creditScore : Int
  downPayment : ℚ
  loanTerm : Nat
  minSeats : Nat
  preferences : Preferences
deriving DecidableEq

/-- `ToyotaVehicle` (the fields the engine reads, plus the descriptive
payload carried through saved alignments). -/
structure Vehicle where
  model : String
  price : ℚ
  description : String
  image : String
  tagStyle : String
  tagUseCase : String
  seatingCapacity : Nat
deriving DecidableEq

/-- The tagged `VehiclePlan` variant (`FinancingPlan | LeasingPlan`). -/
inductive VehiclePlan where
  | financing (monthlyPayment totalCost interestRate loanAmount : ℚ) (loanTerm : Nat)
  | leasing (monthlyPayment dueAtSigning : ℚ) (term : Nat) (moneyFactor residualValue : ℚ)
deriving DecidableEq

/-- `SavedAlignment` from `src/types.ts`. -/
structure SavedAlignment where
  id : String
  vehicle : Vehicle
  userInput : UserInput
  plan : VehiclePlan
  savedAt : String
deriving DecidableEq

/-- One chat message of a saved chatbot conversation. -/
structure ChatMessage where
  sender : String
  text : String
deriving DecidableEq

/-- `Conversation = ChatMessage[]`. -/
abbrev Conversation := List ChatMessage

/-- `UserData` from `src/types.ts`: the per-user aggregate that the `App`
state handlers transform. -/
structure UserData where
  userInput : UserInput
  savedAlignments : List SavedAlignment
  chatbotConversations : List Conversation
  activeLoans : List ActiveLoan
deriving DecidableEq

/-- A scheduled payment (the `Payment` record of `MyTimelinePage`). -/
structure PaymentEvent where
  date : JSDate
  vehicle : ActiveLoan
  remaining : Nat
deriving DecidableEq

/-! ## Rate model and amortization (`src/unnamed/part_004`) -/

/-- `getInterestRate` — credit-score step function. -/
def getInterestRate (score : Int) : ℚ :=
  if 760 ≤ score then 5 / 100
  else if 700 ≤ score then 65 / 1000
  else if 650 ≤ score then 8 / 100
  else if 600 ≤ score then 12 / 100
  else 18 / 100

/-- `calculateMonthlyPayment(principal, annualRate, years)` — the standalone
amortization helper of `App`.  It guards `principal <= 0` and the zero
monthly rate before using the annuity formula. -/
def calculateMonthlyPayment (principal annualRate : ℚ) (years : Nat) : Option ℚ :=
  if principal ≤ 0 then some 0
  else
    let monthlyRate := annualRate / 12
    let numberOfPayments : ℚ := (years : ℚ) * 12
    if monthlyRate = 0 then qdiv principal numberOfPayments
    else qdiv (principal * (monthlyRate * (1 + monthlyRate) ^ (years * 12)))
      ((1 + monthlyRate) ^ (years * 12) - 1)

/-! ## Plan factory (`src/components/FinancingPage.tsx`) -/

/-- `loanAmount = price - downPayment` of the `financingPlan` memo — note:
no clamping. -/
def financingLoanAmount (price downPayment : ℚ) : ℚ :=
  price - downPayment

/-- The `monthlyPayment` of the `financingPlan` memo in `FinancingPage.tsx`.
Unlike `calculateMonthlyPayment` it has no zero-rate guard: with
`interestRate = 0` and a positive loan amount the annuity expression is
`0 / 0`, i.e. `NaN` (modelled as `none`). -/
def financingPlanMonthlyPayment (price downPayment interestRate : ℚ)
    (loanTerm : Nat) : Option ℚ :=
  let loanAmount := financingLoanAmount price downPayment
  let monthlyRate := interestRate / 12
  if 0 < loanAmount then
    qdiv (loanAmount * (monthlyRate * (1 + monthlyRate) ^ (loanTerm * 12)))
      ((1 + monthlyRate) ^ (loanTerm * 12) - 1)
  else some 0

/-- `totalCost = monthlyPayment * numberOfPayments + downPayment` of the
`financingPlan` memo (a non-finite monthly payment propagates). -/
def financingPlanTotalCost (price downPayment interestRate : ℚ)
    (loanTerm : Nat) : Option ℚ :=
  (financingPlanMonthlyPayment price downPayment interestRate loanTerm).map
    (fun m => m * ((loanTerm : ℚ) * 12) + downPayment)

/-- `residualValue = price * 0.55` of the `leasingPlan` memo. -/
def leasingResidualValue (price : ℚ) : ℚ :=
  price * (55 / 100)

/-- The `monthlyPayment` of the `leasingPlan` memo: depreciation fee plus
finance fee, with fixed 36-month term and money factor `rate / 2400`. -/
def leasingMonthlyPayment (price downPayment interestRate : ℚ) : ℚ :=
  let moneyFactor := interestRate / 2400
  let residualValue := leasingResidualValue price
  let capitalizedCost := price - downPayment
  let depreciationFee := (capitalizedCost - residualValue) / 36
  let financeFee := (capitalizedCost + residualValue) * moneyFactor
  depreciationFee + financeFee

/-- `dueAtSigning = downPayment + monthlyPayment` of the `leasingPlan` memo. -/
def leasingDueAtSigning (price downPayment interestRate : ℚ) : ℚ :=
  downPayment + leasingMonthlyPayment price downPayment interestRate

/-! ## Loan commit engine (`handleCommitAlignment` in `src/unnamed/part_004`) -/

/-- `GALAXY_COLORS` — the fixed display palette. -/
def galaxyColors : List String :=
  ["#9b59b6", "#3498db", "#1abc9c", "#e74c3c", "#f1c40f", "#2ecc71", "#e67e22"]

/-- The `ActiveLoan` that `handleCommitAlignment` constructs from a saved
alignment at instant `now` (both Date constructions in the source observe the
same instant). -/
def mkCommittedLoan (a : SavedAlignment) (now : JSDate) (color : String) : ActiveLoan :=
  match a.plan with
  | .financing mp tc _ir la lt =>
    { id := a.id
      vehicleModel := a.vehicle.model
      imageUrl := a.vehicle.image
      monthlyPayment := mp
      totalCost := tc
      loanStartDate := now
      loanTermInMonths := lt * 12
      paymentDayOfMonth := now.day
      color := color
      amountLeft := la
      planType := .Financing
      lastPaymentMonth := none
      initialLoanAmount := some la }
  | .leasing mp _das term _mf _rv =>
    { id := a.id
      vehicleModel := a.vehicle.model
      imageUrl := a.vehicle.image
      monthlyPayment := mp
      totalCost := mp * (term : ℚ)
      loanStartDate := now
      loanTermInMonths := term
      paymentDayOfMonth := now.day
      color := color
      amountLeft := 0
      planType := .Leasing
      lastPaymentMonth := none
      initialLoanAmount := none }

/-- `handleCommitAlignment(alignmentId)` as a transformation of the user
data: a missing alignment or an already-committed identity leaves the state
untouched, otherwise the new loan is appended. -/
def handleCommitAlignment (alignmentId : String) (now : JSDate) (d : UserData) : UserData :=
  match d.savedAlignments.find? (fun a => a.id == alignmentId) with
  | none => d
  | some a =>
    if d.activeLoans.any (fun l => l.id == a.id) then d
    else
      { d with activeLoans := d.activeLoans ++
          [mkCommittedLoan a now
            (galaxyColors.getD (d.activeLoans.length % galaxyColors.length) "")] }

/-- `true` exactly when `handleCommitAlignment` takes the
"This plan has already been committed." branch. -/
def commitAlreadyCommitted (alignmentId : String) (d : UserData) : Bool :=
  match d.savedAlignments.find? (fun a => a.id == alignmentId) with
  | none => false
  | some a => d.activeLoans.any (fun l => l.id == a.id)

/-! ## Payment ledger (`handleMakePayment` and `PaymentModal`) -/

/-- The per-loan update inside `handleMakePayment`: a lease records the
current `year*100 + month` marker, a financing loan clamps the reduced
balance at zero.  No validation of `amount` whatsoever. -/
def applyPaymentToLoan (now : JSDate) (amount : ℚ) (l : ActiveLoan) : ActiveLoan :=
  match l.planType with
  | .Leasing => { l with lastPaymentMonth := some (now.year * 100 + (now.month : Int)) }
  | .Financing => { l with amountLeft := max 0 (l.amountLeft - amount) }

/-- `handleMakePayment(loanId, amount)`: updates the matching loans and
keeps the rest of the user data. -/
def handleMakePayment (loanId : String) (amount : ℚ) (now : JSDate) (d : UserData) : UserData :=
  { d with activeLoans :=
      d.activeLoans.map fun l =>
        if l.id == loanId then applyPaymentToLoan now amount l else l }

/-- `handleSubmit` of `PaymentModal.tsx`: a submission with `amount <= 0` is
ignored (no state change); otherwise the amount is floored to a cent and
forwarded to `handleMakePayment`. -/
def paymentModalSubmit (loan : ActiveLoan) (amount : ℚ) (now : JSDate) (d : UserData) : UserData :=
  if amount ≤ 0 then d
  else handleMakePayment loan.id (floorToCent amount) now d

/-! ## Payment scheduler (`allFuturePayments` in `MyTimelinePage`) -/

/-- Due date of payment `i` of a loan:
`new Date(start.getFullYear(), start.getMonth() + i, paymentDayOfMonth)`. -/
def loanPaymentDate (v : ActiveLoan) (i : Nat) : JSDate :=
  mkDate v.loanStartDate.year ((v.loanStartDate.month : Int) + (i : Int)) v.paymentDayOfMonth

/-- The events one loan contributes to the schedule: payments `0 ≤ i < term`
whose due date is not before `today`. -/
def loanFuturePayments (today : JSDate) (v : ActiveLoan) : List PaymentEvent :=
  (List.range v.loanTermInMonths).filterMap (fun i =>
    if dateKey today ≤ dateKey (loanPaymentDate v i) then
      some ⟨loanPaymentDate v i, v, v.loanTermInMonths - i⟩
    else none)

/-- Ascending-due-date order used by `payments.sort((a, b) => a.date - b.date)`. -/
def eventLe (a b : PaymentEvent) : Prop :=
  dateKey a.date ≤ dateKey b.date

instance : DecidableRel eventLe := fun a b => by
  unfold eventLe; infer_instance

instance : IsTotal PaymentEvent eventLe :=
  ⟨fun a b => le_total (dateKey a.date) (dateKey b.date)⟩

instance : IsTrans PaymentEvent eventLe :=
  ⟨fun _ _ _ h h' => le_trans h h'⟩

/-- `allFuturePayments`: merge the per-loan events and sort ascending by
due date. -/
def allFuturePayments (today : JSDate) (loans : List ActiveLoan) : List PaymentEvent :=
  (loans.flatMap (loanFuturePayments today)).insertionSort eventLe

/-! ## On-track evaluator (`getOnTrackStatus` in `MyTimelinePage`) -/

/-- `getOnTrackStatus(vehicle)` evaluated at the explicit instant `today`. -/
def getOnTrackStatus (today : JSDate) (v : ActiveLoan) : Bool :=
  match v.planType with
  | .Leasing =>
    let currentMonthIdentifier := today.year * 100 + (today.month : Int)
    let startMonthIdentifier := v.loanStartDate.year * 100 + (v.loanStartDate.month : Int)
    if v.lastPaymentMonth = some currentMonthIdentifier then true
    else if startMonthIdentifier = currentMonthIdentifier ∧ today.day < v.paymentDayOfMonth then true
    else false
  | .Financing =>
    if v.amountLeft ≤ 0 then true
    else if isFalsyOptQ v.initialLoanAmount then true
    else
      let paymentsDue := monthsPassed v.loanStartDate today +
        (if v.paymentDayOfMonth ≤ today.day then 1 else 0)
      if paymentsDue ≤ 0 then true
      else jsDivGe (v.initialLoanAmount.getD 0 - v.amountLeft) v.monthlyPayment
        ((paymentsDue : ℚ) - 1)

/-! ## Concrete fixtures used by witnesses and counterexamples -/

/-- A concrete instant: 2024-06-10 (June, 0-based month 5). -/
def nowJun : JSDate := ⟨2024, 5, 10⟩

/-- A concrete financing loan with balance 1000. -/
def loanFin : ActiveLoan :=
  { id := "L1", vehicleModel := "Corolla", imageUrl := "img", monthlyPayment := 100,
    totalCost := 1200, loanStartDate := ⟨2024, 0, 15⟩, loanTermInMonths := 12,
    paymentDayOfMonth := 15, color := "#9b59b6", amountLeft := 1000,
    planType := .Financing, lastPaymentMonth := none, initialLoanAmount := some 1000 }

/-- A concrete leasing loan. -/
def loanLease : ActiveLoan :=
  { id := "L2", vehicleModel := "RAV4", imageUrl := "img2", monthlyPayment := 400,
    totalCost := 14400, loanStartDate := ⟨2024, 2, 5⟩, loanTermInMonths := 36,
    paymentDayOfMonth := 5, color := "#3498db", amountLeft := 0,
    planType := .Leasing, lastPaymentMonth := none, initialLoanAmount := none }

/-- Concrete user input. -/
def input0 : UserInput :=
  { income := 75000, creditScore := 720, downPayment := 5000, loanTerm := 5,
    minSeats := 1, preferences := { style := [], useCase := [], description := "" } }

/-- A concrete vehicle. -/
def vehicle0 : Vehicle :=
  { model := "Corolla", price := 32000, description := "sedan", image := "img",
    tagStyle := "Sedan", tagUseCase := "Commuting", seatingCapacity := 5 }

/-- A concrete saved financing alignment with id `"A1"`. -/
def alignment0 : SavedAlignment :=
  { id := "A1", vehicle := vehicle0, userInput := input0,
    plan := .financing 528 36680 (65 / 1000) 27000 5, savedAt := "2024-06-01" }

/-- Concrete user data: one saved alignment, two active loans. -/
def userData0 : UserData :=
  { userInput := input0, savedAlignments := [alignment0],
    chatbotConversations := [], activeLoans := [loanFin, loanLease] }

/-- The (0-based-month) target year of payment `i` of a loan: the year
component of `startDate.month + i` normalised into `startDate.year`. -/
def targetYear (v : ActiveLoan) (i : Nat) : Int :=
  v.loanStartDate.year + (((v.loanStartDate.month : Int) + (i : Int)).fdiv 12)

/-- The 0-based target month of payment `i` of a loan. -/
def targetMonth (v : ActiveLoan) (i : Nat) : Nat :=
  (((v.loanStartDate.month : Int) + (i : Int)).emod 12).toNat

/-- A financing loan starting 2024-01-31 whose payment day 31 overflows
short months. -/
def loanJan31 : ActiveLoan :=
  { id := "L3", vehicleModel := "Camry", imageUrl := "img3", monthlyPayment := 500,
    totalCost := 6000, loanStartDate := ⟨2024, 0, 31⟩, loanTermInMonths := 12,
    paymentDayOfMonth := 31, color := "#1abc9c", amountLeft := 6000,
    planType := .Financing, lastPaymentMonth := none, initialLoanAmount := some 6000 }

/-! ## C1 — payment validation (corrected) -/

/-- C1 (counterexample): `handleMakePayment` does not reject an invalid
amount.  A payment of `-50` against the financing loan `L1` (balance 1000)
is accepted and *increases* the balance to 1050, so an `amount ≤ 0` call is
neither rejected nor free of mutation as the claim states. -/
theorem c1_counterexample :
    (handleMakePayment "L1" (-50) nowJun userData0).activeLoans.map ActiveLoan.amountLeft
      = [1050, 0] ∧
    userData0.activeLoans.map ActiveLoan.amountLeft = [1000, 0] := by
  constructor
  · norm_num [handleMakePayment, applyPaymentToLoan, userData0, loanFin, loanLease]
    split <;> rfl
  · norm_num [userData0, loanFin, loanLease]

/-- C1 (amended): the ledger itself performs no validation — for a financing
loan every call sets `amountLeft := max 0 (amountLeft − amount)` (so an
amount exceeding the balance clamps it to 0 and a negative amount increases
it); the only guard in the payment path is `PaymentModal.handleSubmit`,
which silently ignores a submission with `amount ≤ 0`, leaving the user data
unchanged.  There is no `InvalidPaymentAmount` error anywhere. -/
theorem c1_amended (l : ActiveLoan) (amt : ℚ) (now : JSDate) (d : UserData) :
    (amt ≤ 0 → paymentModalSubmit l amt now d = d) ∧
    (l.planType = PlanType.Financing →
      (applyPaymentToLoan now amt l).amountLeft = max 0 (l.amountLeft - amt)) := by
  constructor
  · intro h
    simp [paymentModalSubmit, h]
  · intro h
    simp [applyPaymentToLoan, h]

/-- C1 (witness): the amended theorem applied at a concrete rejected
submission and at the concrete financing loan. -/
theorem c1_amended_witness :
    paymentModalSubmit loanFin (-50) nowJun userData0 = userData0 ∧
    (applyPaymentToLoan nowJun 300 loanFin).amountLeft = max 0 (loanFin.amountLeft - 300) := by
  refine ⟨(c1_amended loanFin (-50) nowJun userData0).1 (by norm_num),
    (c1_amended loanFin 300 nowJun userData0).2 (by decide)⟩

/-! ## C2 — zero-rate amortization (code bug in the plan factory) -/

/-- C2: with annual rate 0, the standalone `calculateMonthlyPayment`
special-cases the zero monthly rate and returns exactly `P / (t*12)` (finite)
for every principal `P > 0` and term `t ≥ 1` — but the duplicated financing
computation in `FinancingPage.tsx` has no such guard and evaluates `0 / 0`,
i.e. `NaN` (modelled as `none`), e.g. at price 1000, down payment 0, rate 0,
term 5 years. -/
theorem c2_zero_rate :
    (∀ (P : ℚ) (t : ℕ), 0 < P → 1 ≤ t →
      calculateMonthlyPayment P 0 t = some (P / ((t : ℚ) * 12))) ∧
    financingPlanMonthlyPayment 1000 0 0 5 = none := by
  constructor
  · intro P t hP ht
    have hne : ((t : ℚ) * 12) ≠ 0 := by
      have : (0 : ℚ) < (t : ℚ) := by exact_mod_cast Nat.lt_of_lt_of_le Nat.zero_lt_one ht
      positivity
    simp [calculateMonthlyPayment, qdiv, not_le.mpr hP, hne]
  · norm_num [financingPlanMonthlyPayment, financingLoanAmount, qdiv]

/-- C2 (witness): the zero-rate property of the standalone calculator
evaluated at `P = 1000`, `t = 5`. -/
theorem c2_zero_rate_witness :
    calculateMonthlyPayment 1000 0 5 = some (1000 / ((5 : ℚ) * 12)) := by
  have h := c2_zero_rate.1 1000 5 (by norm_num) (by norm_num)
  simpa using h

/-! ## C7 — lease payment / evaluator round trip (confirmed) -/

/-- C7: applying any payment to a leasing loan at instant `now` records the
marker `lastPaymentMonth = year*100 + month` of `now` (0-based month, as
`getMonth()` returns it), and the updated loan is on-track at that same
instant. -/
theorem c7_lease_roundtrip (l : ActiveLoan) (amt : ℚ) (now : JSDate)
    (hl : l.planType = PlanType.Leasing) (_hamt : 0 < amt) :
    (applyPaymentToLoan now amt l).lastPaymentMonth
      = some (now.year * 100 + (now.month : Int)) ∧
    getOnTrackStatus now (applyPaymentToLoan now amt l) = true := by
  constructor
  · simp [applyPaymentToLoan, hl]
  · simp [applyPaymentToLoan, hl, getOnTrackStatus]

/-- C7 (witness): the round trip at the concrete lease `L2` with a payment
of 400 on 2024-06-10. -/
theorem c7_lease_roundtrip_witness :
    (applyPaymentToLoan nowJun 400 loanLease).lastPaymentMonth
      = some (2024 * 100 + 5) ∧
    getOnTrackStatus nowJun (applyPaymentToLoan nowJun 400 loanLease) = true := by
  have h := c7_lease_roundtrip loanLease 400 nowJun (by decide) (by norm_num)
  simpa [nowJun] using h

/-! ## C8 — plan-factory currency invariants (corrected) -/

/-- C8 (counterexample): the plan factory does not clamp the loan amount.
At price 1000 and down payment 2000 the financing plan's `loanAmount` is
`-1000 < 0`, contradicting both the clamp and the non-negativity of every
currency field. -/
theorem c8_counterexample : financingLoanAmount 1000 2000 < 0 := by
  norm_num [financingLoanAmount]

/-- C8 (amended): `loanAmount = price − downPayment` exactly, with no
clamping — it is negative whenever `downPayment > price`.  The financing
`monthlyPayment` is 0 (and `totalCost` collapses to the down payment) when
`loanAmount ≤ 0`, but the lease monthly payment can itself be negative
(e.g. price 10000, down payment 9000, rate 0.05). -/
theorem c8_amended (price dp rate : ℚ) (lt : Nat) :
    financingLoanAmount price dp = price - dp ∧
    (price < dp → financingLoanAmount price dp < 0) ∧
    (financingLoanAmount price dp ≤ 0 →
      financingPlanMonthlyPayment price dp rate lt = some 0 ∧
      financingPlanTotalCost price dp rate lt = some dp) ∧
    leasingMonthlyPayment 10000 9000 (5 / 100) < 0 := by
  refine ⟨rfl, ?_, ?_, ?_⟩
  · intro h
    simpa [financingLoanAmount] using h
  · intro h
    have hmp : financingPlanMonthlyPayment price dp rate lt = some 0 := by
      simp [financingPlanMonthlyPayment, not_lt.mpr h]
    exact ⟨hmp, by simp [financingPlanTotalCost, hmp]⟩
  · norm_num [leasingMonthlyPayment, leasingResidualValue]

/-- C8 (witness): the amended statement at price 1000, down payment 2000. -/
theorem c8_amended_witness :
    financingLoanAmount 1000 2000 < 0 ∧
    financingPlanMonthlyPayment 1000 2000 (5 / 100) 5 = some 0 := by
  refine ⟨(c8_amended 1000 2000 (5 / 100) 5).2.1 (by norm_num),
    ((c8_amended 1000 2000 (5 / 100) 5).2.2.1 (by norm_num [financingLoanAmount])).1⟩

/-! ## C9 — balance never goes negative (confirmed) -/

/-- C9: for a financing loan with non-negative balance, every payment
application — including negative amounts and overpayments — leaves
`amountLeft ≥ 0`, because the update clamps at zero. -/
theorem c9_balance_nonneg (l : ActiveLoan) (amt : ℚ) (now : JSDate)
    (hf : l.planType = PlanType.Financing) (_h0 : 0 ≤ l.amountLeft) :
    0 ≤ (applyPaymentToLoan now amt l).amountLeft := by
  simp only [applyPaymentToLoan, hf]
  exact le_max_left 0 _

/-- C9 (witness): the invariant at the concrete financing loan with an
overpayment of 5000 against a balance of 1000. -/
theorem c9_balance_nonneg_witness :
    0 ≤ (applyPaymentToLoan nowJun 5000 loanFin).amountLeft :=
  c9_balance_nonneg loanFin 5000 nowJun (by decide) (by norm_num [loanFin])

/-! ## C10 — frame property of `handleMakePayment` (confirmed) -/

/-- C10: a payment call touches at most the matching loan's `amountLeft`
(financing) or `lastPaymentMonth` (leasing): the user input, saved
alignments and conversations are returned unchanged, the loan list keeps
its shape, non-matching loans are returned as they were, and even on the
matching loan every other field is preserved. -/
theorem c10_payment_frame (loanId : String) (amt : ℚ) (now : JSDate) (d : UserData) :
    (handleMakePayment loanId amt now d).userInput = d.userInput ∧
    (handleMakePayment loanId amt now d).savedAlignments = d.savedAlignments ∧
    (handleMakePayment loanId amt now d).chatbotConversations = d.chatbotConversations ∧
    List.Forall₂ (fun l l' =>
      (l.id ≠ loanId → l' = l) ∧
      l'.id = l.id ∧ l'.vehicleModel = l.vehicleModel ∧ l'.imageUrl = l.imageUrl ∧
      l'.monthlyPayment = l.monthlyPayment ∧ l'.totalCost = l.totalCost ∧
      l'.loanStartDate = l.loanStartDate ∧ l'.loanTermInMonths = l.loanTermInMonths ∧
      l'.paymentDayOfMonth = l.paymentDayOfMonth ∧ l'.color = l.color ∧
      l'.planType = l.planType ∧ l'.initialLoanAmount = l.initialLoanAmount ∧
      (l.planType = PlanType.Financing → l'.lastPaymentMonth = l.lastPaymentMonth) ∧
      (l.planType = PlanType.Leasing → l'.amountLeft = l.amountLeft))
      d.activeLoans (handleMakePayment loanId amt now d).activeLoans := by
  refine ⟨rfl, rfl, rfl, ?_⟩
  show List.Forall₂ _ d.activeLoans (d.activeLoans.map _)
  rw [List.forall₂_map_right_iff, List.forall₂_same]
  intro l _
  by_cases hid : l.id == loanId
  · have hne : ¬ l.id ≠ loanId := by
      simpa using eq_of_beq hid
    cases hpt : l.planType <;>
      simp [hid, applyPaymentToLoan, hpt, hne]
  · simp [hid]

/-- C10 (witness): the frame property at the concrete user data and a
payment against loan `L1`: the saved alignments survive and the
non-matching lease `L2` is untouched. -/
theorem c10_payment_frame_witness :
    (handleMakePayment "L1" 100 nowJun userData0).savedAlignments = userData0.savedAlignments ∧
    (handleMakePayment "L1" 100 nowJun userData0).userInput = userData0.userInput := by
  exact ⟨(c10_payment_frame "L1" 100 nowJun userData0).2.1,
    (c10_payment_frame "L1" 100 nowJun userData0).1⟩

/-! ## C3 — commit idempotence (confirmed) -/

/-- The committed loan carries the alignment's identity, in both plan
variants. -/
theorem mkCommittedLoan_id (a : SavedAlignment) (now : JSDate) (c : String) :
    (mkCommittedLoan a now c).id = a.id := by
  cases h : a.plan <;> simp [mkCommittedLoan, h]

/-- Committing never changes the saved alignments. -/
theorem commit_savedAlignments (aid : String) (now : JSDate) (d : UserData) :
    (handleCommitAlignment aid now d).savedAlignments = d.savedAlignments := by
  unfold handleCommitAlignment
  cases h : d.savedAlignments.find? (fun a => a.id == aid) with
  | none => rfl
  | some a =>
    by_cases hl : d.activeLoans.any (fun l => l.id == a.id) <;> simp [hl]

/-- C3: committing is idempotent — a second commit of the same identity is
a no-op on the whole user record (for any pair of commit instants), and
whenever the identity names a saved alignment the second call takes the
"already been committed" branch. -/
theorem c3_commit_idempotent (d : UserData) (aid : String) (n1 n2 : JSDate) :
    handleCommitAlignment aid n2 (handleCommitAlignment aid n1 d)
      = handleCommitAlignment aid n1 d ∧
    ((d.savedAlignments.find? (fun a => a.id == aid)).isSome →
      commitAlreadyCommitted aid (handleCommitAlignment aid n1 d) = true) := by
  cases h : d.savedAlignments.find? (fun a => a.id == aid) with
  | none =>
    have h1 : ∀ n, handleCommitAlignment aid n d = d := by
      intro n
      unfold handleCommitAlignment
      simp [h]
    rw [h1 n1, h1 n2]
    exact ⟨rfl, by simp [h]⟩
  | some a =>
    by_cases hl : d.activeLoans.any (fun l => l.id == a.id)
    · have h1 : ∀ n, handleCommitAlignment aid n d = d := by
        intro n
        unfold handleCommitAlignment
        simp [h, hl]
      rw [h1 n1, h1 n2]
      refine ⟨rfl, fun _ => ?_⟩
      unfold commitAlreadyCommitted
      simp [h, hl]
    · have h1 : handleCommitAlignment aid n1 d =
        { d with activeLoans := d.activeLoans ++
            [mkCommittedLoan a n1
              (galaxyColors.getD (d.activeLoans.length % galaxyColors.length) "")] } := by
        unfold handleCommitAlignment
        simp [h, hl]
      have hfind : ({ d with activeLoans := d.activeLoans ++
            [mkCommittedLoan a n1
              (galaxyColors.getD (d.activeLoans.length % galaxyColors.length) "")] } :
          UserData).savedAlignments.find? (fun a => a.id == aid) = some a := h
      have hany : (d.activeLoans ++
          [mkCommittedLoan a n1
            (galaxyColors.getD (d.activeLoans.length % galaxyColors.length) "")]).any
          (fun l => l.id == a.id) = true := by
        rw [List.any_append]
        simp [mkCommittedLoan_id]
      constructor
      · rw [h1]
        unfold handleCommitAlignment
        simp only [hfind, hany, if_pos]
      · intro _
        rw [h1]
        unfold commitAlreadyCommitted
        simp only [hfind, hany]

/-- C3 (witness): committing alignment `A1` into a record that does not yet
track it, twice: the second call is a no-op and reports the duplicate. -/
theorem c3_commit_idempotent_witness :
    commitAlreadyCommitted "A1" (handleCommitAlignment "A1" nowJun userData0) = true :=
  (c3_commit_idempotent userData0 "A1" nowJun nowJun).2 (by decide)

/-! ## C4 — day-of-month overflow policy (corrected: roll-forward, not clamp) -/

/-- Every month has at least 28 days. -/
theorem daysInMonth_ge (y : Int) (m : Nat) : 28 ≤ daysInMonth y m := by
  unfold daysInMonth
  split_ifs <;> norm_num

/-- Every month has at most 31 days. -/
theorem daysInMonth_le (y : Int) (m : Nat) : daysInMonth y m ≤ 31 := by
  unfold daysInMonth
  split_ifs <;> norm_num

/-- A day that fits in the month is left alone, for any fuel. -/
theorem rollForwardAux_of_le (fuel : Nat) (y : Int) (m d : Nat)
    (h : d ≤ daysInMonth y m) : rollForwardAux fuel y m d = ⟨y, m, d⟩ := by
  cases fuel <;> simp [rollForwardAux, h]

/-- An overflowing day moves one month forward (one unrolling of the loop). -/
theorem rollForwardAux_of_gt (fuel : Nat) (y : Int) (m d : Nat)
    (h : daysInMonth y m < d) :
    rollForwardAux (fuel + 1) y m d =
      rollForwardAux fuel (if m = 11 then y + 1 else y)
        (if m = 11 then 0 else m + 1) (d - daysInMonth y m) := by
  simp [rollForwardAux, not_le.mpr h]

/-- Behaviour of `new Date(y, m, d)` for a realistic day-of-month
(`1 ≤ d ≤ 31`): the date lands in the normalised target month when the day
fits, and rolls forward into the very next month (by the overflow amount)
when it does not. -/
theorem mkDate_spec (y : Int) (m : Int) (d : Nat) (hd1 : 1 ≤ d) (hd31 : d ≤ 31) :
    (d ≤ daysInMonth (y + m.fdiv 12) (m.emod 12).toNat →
      mkDate y m d = ⟨y + m.fdiv 12, (m.emod 12).toNat, d⟩) ∧
    (daysInMonth (y + m.fdiv 12) (m.emod 12).toNat < d →
      mkDate y m d =
        ⟨(if (m.emod 12).toNat = 11 then y + m.fdiv 12 + 1 else y + m.fdiv 12),
         (if (m.emod 12).toNat = 11 then 0 else (m.emod 12).toNat + 1),
         d - daysInMonth (y + m.fdiv 12) (m.emod 12).toNat⟩) := by
  constructor
  · intro h
    exact rollForwardAux_of_le d _ _ _ h
  · intro h
    obtain ⟨k, rfl⟩ : ∃ k, d = k + 1 := ⟨d - 1, by omega⟩
    unfold mkDate
    rw [rollForwardAux_of_gt k _ _ _ h]
    have h28 := daysInMonth_ge (y + m.fdiv 12) (m.emod 12).toNat
    have h28' := daysInMonth_ge
      (if (m.emod 12).toNat = 11 then y + m.fdiv 12 + 1 else y + m.fdiv 12)
      (if (m.emod 12).toNat = 11 then 0 else (m.emod 12).toNat + 1)
    exact rollForwardAux_of_le _ _ _ _ (by omega)

/-- C4 (counterexample): the scheduler does not clamp.  For the loan
starting 2024-01-31 with payment day 31, payment 1 falls in February 2024
(29 days): the generated due date is 2024-03-02 — it rolls forward into
March — and not the clamped 2024-02-29. -/
theorem c4_counterexample :
    loanPaymentDate loanJan31 1 = ⟨2024, 2, 2⟩ ∧
    loanPaymentDate loanJan31 1 ≠ ⟨2024, 1, 29⟩ := by
  decide

/-- C4 (amended): the single consistent policy applied to every generated
due date is JavaScript date roll-forward, not clamping: for any loan with a
realistic payment day (`1 ≤ day ≤ 31`) and any payment index, the due date
stays in the target month when the day fits, and otherwise lands in the
month immediately after the target month, on day
`paymentDayOfMonth − daysInMonth(target)`. -/
theorem c4_roll_forward_policy (v : ActiveLoan) (i : Nat)
    (hd1 : 1 ≤ v.paymentDayOfMonth) (hd31 : v.paymentDayOfMonth ≤ 31) :
    (v.paymentDayOfMonth ≤ daysInMonth (targetYear v i) (targetMonth v i) →
      loanPaymentDate v i = ⟨targetYear v i, targetMonth v i, v.paymentDayOfMonth⟩) ∧
    (daysInMonth (targetYear v i) (targetMonth v i) < v.paymentDayOfMonth →
      loanPaymentDate v i =
        ⟨(if targetMonth v i = 11 then targetYear v i + 1 else targetYear v i),
         (if targetMonth v i = 11 then 0 else targetMonth v i + 1),
         v.paymentDayOfMonth - daysInMonth (targetYear v i) (targetMonth v i)⟩) :=
  mkDate_spec v.loanStartDate.year ((v.loanStartDate.month : Int) + (i : Int))
    v.paymentDayOfMonth hd1 hd31

/-- C4 (witness): the roll-forward policy evaluated on the concrete loan:
day 31 overflows February 2024 by two days, giving 2024-03-02. -/
theorem c4_roll_forward_policy_witness :
    loanPaymentDate loanJan31 1 = ⟨2024, 2, 2⟩ := by
  have h := (c4_roll_forward_policy loanJan31 1 (by decide) (by decide)).2 (by decide)
  exact h.trans (by decide)

/-! ## C5 — payment schedule contents and order (confirmed) -/

/-- C5: the schedule contains, for each loan, exactly the events with
`monthIndex ∈ 0..term−1` whose due date
`new Date(start.year, start.month + monthIndex, paymentDayOfMonth)` is not
before `from`, carrying `paymentsRemaining = term − monthIndex`; and the
merged result is sorted ascending by due date. -/
theorem c5_schedule_spec (today : JSDate) (loans : List ActiveLoan) :
    (∀ e : PaymentEvent, e ∈ allFuturePayments today loans ↔
      ∃ v ∈ loans, ∃ i, i < v.loanTermInMonths ∧
        dateKey today ≤ dateKey (loanPaymentDate v i) ∧
        e = ⟨loanPaymentDate v i, v, v.loanTermInMonths - i⟩) ∧
    List.Sorted eventLe (allFuturePayments today loans) := by
  constructor
  · intro e
    unfold allFuturePayments
    rw [List.mem_insertionSort, List.mem_flatMap]
    constructor
    · rintro ⟨v, hv, he⟩
      unfold loanFuturePayments at he
      rw [List.mem_filterMap] at he
      obtain ⟨i, hi, hsome⟩ := he
      rw [List.mem_range] at hi
      by_cases hd : dateKey today ≤ dateKey (loanPaymentDate v i)
      · rw [if_pos hd] at hsome
        exact ⟨v, hv, i, hi, hd, (Option.some_inj.mp hsome).symm⟩
      · rw [if_neg hd] at hsome
        exact absurd hsome (by simp)
    · rintro ⟨v, hv, i, hi, hd, rfl⟩
      refine ⟨v, hv, ?_⟩
      unfold loanFuturePayments
      rw [List.mem_filterMap]
      exact ⟨i, List.mem_range.mpr hi, by rw [if_pos hd]⟩
  · exact List.sorted_insertionSort eventLe _

/-- C5 (witness): the characterisation at the concrete lease `L2` viewed
from 2024-06-10: payment index 4 (due 2024-07-05, 32 payments remaining) is
in the schedule. -/
theorem c5_schedule_spec_witness :
    (⟨⟨2024, 6, 5⟩, loanLease, 32⟩ : PaymentEvent) ∈ allFuturePayments nowJun [loanLease] := by
  refine ((c5_schedule_spec nowJun [loanLease]).1 _).mpr
    ⟨loanLease, by simp, 4, by decide, by decide, ?_⟩
  have hdate : loanPaymentDate loanLease 4 = ⟨2024, 6, 5⟩ := by decide
  rw [hdate]
  decide

/-! ## C6 — a freshly committed financing loan is and stays on-track -/

/-- One more clamped payment composes: `max 0 (· − amt)` applied to
`max 0 (b − n·amt)` gives `max 0 (b − (n+1)·amt)` for `amt ≥ 0`. -/
theorem max_zero_sub_step (b amt : ℚ) (h : 0 ≤ amt) (n : Nat) :
    max 0 (max 0 (b - n * amt) - amt) = max 0 (b - ((n + 1 : Nat) : ℚ) * amt) := by
  rcases le_total (b - n * amt) 0 with hb | hb
  · have h1 : max (0 : ℚ) (b - n * amt) = 0 := max_eq_left hb
    have h2 : b - ((n + 1 : Nat) : ℚ) * amt ≤ 0 := by push_cast; nlinarith
    rw [h1, max_eq_left h2, max_eq_left (by linarith : (0 : ℚ) - amt ≤ 0)]
  · have h1 : max (0 : ℚ) (b - n * amt) = b - n * amt := max_eq_right hb
    rw [h1]
    congr 1
    push_cast
    ring

/-- Iterating the financing payment update `k` times from balance
`amountLeft ≥ 0` with a non-negative amount yields the clamped balance
`max 0 (amountLeft − k·amt)` and changes nothing else. -/
theorem applyPayment_iterate_financing (l : ActiveLoan)
    (hf : l.planType = PlanType.Financing) (amt : ℚ) (hamt : 0 ≤ amt)
    (h0 : 0 ≤ l.amountLeft) (now : JSDate) (k : Nat) :
    (applyPaymentToLoan now amt)^[k] l
      = { l with amountLeft := max 0 (l.amountLeft - (k : ℚ) * amt) } := by
  induction k with
  | zero =>
    simp [max_eq_right h0]
  | succ n ih =>
    rw [Function.iterate_succ_apply', ih]
    simp only [applyPaymentToLoan, hf]
    rw [max_zero_sub_step l.amountLeft amt hamt n]

/-- C6: a financing plan with positive loan amount and positive monthly
payment, committed at instant `now`, is on-track immediately; and at any
later instant `t` (`monthsPassed now t ≥ 0`) it is still on-track after one
full monthly payment per elapsed calendar month. -/
theorem c6_commit_on_track (a : SavedAlignment) (color : String) (now t : JSDate)
    (mp tc ir la : ℚ) (lty : Nat)
    (hplan : a.plan = VehiclePlan.financing mp tc ir la lty)
    (hla : 0 < la) (hmp : 0 < mp) (helapsed : 0 ≤ monthsPassed now t) :
    getOnTrackStatus now (mkCommittedLoan a now color) = true ∧
    getOnTrackStatus t
      ((applyPaymentToLoan t mp)^[(monthsPassed now t).toNat]
        (mkCommittedLoan a now color)) = true := by
  constructor
  · have hmz : monthsPassed now now = 0 := by simp [monthsPassed]
    simp [mkCommittedLoan, hplan, getOnTrackStatus, hmz, isFalsyOptQ, jsDivGe,
      not_le.mpr hla, hla.ne', hmp.ne']
  · have hiter := applyPayment_iterate_financing (mkCommittedLoan a now color)
      (by simp [mkCommittedLoan, hplan]) mp hmp.le
      (by simp [mkCommittedLoan, hplan]; exact hla.le) t (monthsPassed now t).toNat
    rw [hiter]
    set k : Nat := (monthsPassed now t).toNat with hk
    have hkZ : (k : Int) = monthsPassed now t := Int.toNat_of_nonneg helapsed
    have hAL : (mkCommittedLoan a now color).amountLeft = la := by
      simp [mkCommittedLoan, hplan]
    rw [hAL]
    by_cases hpaid : max 0 (la - (k : ℚ) * mp) ≤ 0
    · simp only [mkCommittedLoan, hplan, getOnTrackStatus]
      rw [if_pos (by simpa using hpaid)]
    · have hpos : 0 < la - (k : ℚ) * mp := by
        rcases lt_max_iff.mp (not_le.mp hpaid) with h | h
        · exact absurd h (lt_irrefl 0)
        · exact h
      have hmax : max 0 (la - (k : ℚ) * mp) = la - (k : ℚ) * mp := max_eq_right hpos.le
      simp only [mkCommittedLoan, hplan, getOnTrackStatus]
      rw [if_neg (by simpa using hpaid)]
      rw [if_neg (by simp [isFalsyOptQ, hla.ne'])]
      have hmonths : monthsPassed now t = (k : Int) := hkZ.symm
      simp only [hmonths]
      by_cases hdue : (k : Int) + (if now.day ≤ t.day then 1 else 0) ≤ 0
      · rw [if_pos hdue]
      · rw [if_neg hdue]
        rw [hmax]
        have hsub : la - (la - (k : ℚ) * mp) = (k : ℚ) * mp := by ring
        simp only [Option.getD_some, hsub, jsDivGe]
        rw [if_neg hmp.ne']
        have hdiv : (k : ℚ) * mp / mp = (k : ℚ) := mul_div_cancel_right₀ _ hmp.ne'
        rw [hdiv]
        apply decide_eq_true
        by_cases hday : now.day ≤ t.day
        · simp only [if_pos hday]
          push_cast
          linarith
        · simp only [if_neg hday]
          push_cast
          linarith

/-- C6 (witness): committing the concrete financing alignment `A1` (loan
27000, payment 528) on 2024-06-10 yields an on-track loan, still on-track
on 2024-09-20 after the three elapsed months' payments. -/
theorem c6_commit_on_track_witness :
    getOnTrackStatus nowJun (mkCommittedLoan alignment0 nowJun "#9b59b6") = true ∧
    getOnTrackStatus ⟨2024, 8, 20⟩
      ((applyPaymentToLoan ⟨2024, 8, 20⟩ 528)^[3]
        (mkCommittedLoan alignment0 nowJun "#9b59b6")) = true := by
  have h := c6_commit_on_track alignment0 "#9b59b6" nowJun ⟨2024, 8, 20⟩
    528 36680 (65 / 1000) 27000 5 rfl (by norm_num) (by norm_num) (by decide)
  have h3 : (monthsPassed nowJun ⟨2024, 8, 20⟩).toNat = 3 := by decide
  rw [h3] at h
  exact h

end AstralMotors
